import Mathlib

/-!
# Verification of the YouTube Audio Extractor glue logic

A shallow embedding of the repository's original logic:

* `app/core.py` — `AudioExtractor.sanitize_filename`,
  `AudioExtractor.normalize_audio_format`, `AudioExtractor.extract_audio`,
  `AudioExtractor.extract_audio_to_file`;
* `app/main.py` — `_sanitize_filename` (verbatim duplicate of the core
  sanitizer), `_normalize_audio_format`, `_redact_youtube_url_for_logs`,
  `_extract_audio_file_response`, and the HTTP exception handlers;
* `app/mcp_server.py` — the `extract_audio` tool.

The external collaborators (yt-dlp, ffmpeg, `tempfile.mkdtemp`) are opaque
oracles: yt-dlp is a record of a metadata answer and a filesystem effect,
and `tempfile.mkdtemp` is a caller-supplied directory name subject to the
stdlib contract that the created directory did not previously exist.

Python `str` values are embedded as Lean `String`; only the six ASCII
whitespace characters recognised by `str.strip()` / `\s` are modelled
(none of the analysed behaviours involve non-ASCII whitespace).
-/

/-- The ASCII whitespace characters stripped by Python `str.strip()` and
matched by the regex class `\s`. -/
def pyIsSpace (c : Char) : Bool :=
  c == ' ' || c == '\t' || c == '\n' || c == '\r' || c == '\x0b' || c == '\x0c'

/-- ASCII lowercasing of one character, as Python `str.lower()` acts on
ASCII input. -/
def pyLowerChar (c : Char) : Char :=
  if 'A' ≤ c ∧ c ≤ 'Z' then Char.ofNat (c.toNat + 32) else c

/-- ASCII uppercasing of one character, as Python `str.upper()` acts on
ASCII input. -/
def pyUpperChar (c : Char) : Char :=
  if 'a' ≤ c ∧ c ≤ 'z' then Char.ofNat (c.toNat - 32) else c

/-- Python `s.lower()` on ASCII input. -/
def pyLower (s : String) : String := String.mk (s.toList.map pyLowerChar)

/-- Python `s.upper()` on ASCII input. -/
def pyUpper (s : String) : String := String.mk (s.toList.map pyUpperChar)

/-- Remove the characters satisfying `q` from both ends of a list:
Python `str.strip(chars)`. -/
def stripCharsList (q : Char → Bool) (l : List Char) : List Char :=
  ((l.dropWhile q).reverse.dropWhile q).reverse

/-- Python `s.strip()` (whitespace from both ends). -/
def pyStrip (s : String) : String := String.mk (stripCharsList pyIsSpace s.toList)

/-- `re.sub(r"\s+", " ", ·)`: replace every maximal run of whitespace
characters by a single space. -/
def collapseWs : List Char → List Char
  | [] => []
  | [c] => if pyIsSpace c then [' '] else [c]
  | c₁ :: c₂ :: rest =>
    if pyIsSpace c₁ then
      if pyIsSpace c₂ then collapseWs (c₂ :: rest)
      else ' ' :: collapseWs (c₂ :: rest)
    else c₁ :: collapseWs (c₂ :: rest)

/-- The character class kept by `re.sub(r"[^a-zA-Z0-9 \-_\.\(\)\[\]]+", "", ·)`:
ASCII letters, digits, space, hyphen, underscore, period, parentheses and
square brackets. -/
def isAllowedChar (c : Char) : Bool :=
  ('a' ≤ c && c ≤ 'z') || ('A' ≤ c && c ≤ 'Z') || ('0' ≤ c && c ≤ '9') ||
  c == ' ' || c == '-' || c == '_' || c == '.' ||
  c == '(' || c == ')' || c == '[' || c == ']'

/-- The characters removed from both ends by `name.strip(" .-_")`. -/
def isPunctStripChar (c : Char) : Bool :=
  c == ' ' || c == '.' || c == '-' || c == '_'

/-- Python truthiness fallback `value or default` for an optional string:
`None` and `""` are falsy. -/
def pyOrString (value : Option String) (default : String) : String :=
  match value with
  | none => default
  | some s => if s = "" then default else s

/-- `AudioExtractor.sanitize_filename` (`app/core.py` lines 27–45), character
by character:

1. `name.strip()`;
2. `re.sub(r"\s+", " ", name)`;
3. `re.sub(r"[^a-zA-Z0-9 \-_\.\(\)\[\]]+", "", name)`;
4. `name.strip(" .-_")`;
5. `if not name: name = "audio"`;
6. `name[:max_len]`.

`app/main.py` lines 40–47 (`_sanitize_filename`) duplicate this function
verbatim; both are embedded by this single definition. -/
def sanitizeList (l : List Char) (max_len : Nat) : List Char :=
  let s₁ := stripCharsList pyIsSpace l
  let s₂ := collapseWs s₁
  let s₃ := s₂.filter isAllowedChar
  let s₄ := stripCharsList isPunctStripChar s₃
  let s₅ := if s₄ = [] then "audio".toList else s₄
  s₅.take max_len

/-- String-level wrapper of `sanitizeList`; the 120-character default bound
matches the Python `max_len: int = 120` default. -/
def sanitize_filename (name : String) (max_len : Nat := 120) : String :=
  String.mk (sanitizeList name.toList max_len)

/-- `AudioExtractor.normalize_audio_format` (`app/core.py` lines 47–64):
`fmt = (value or "mp3").strip().lower()`, then reject anything outside
`{"mp3", "wav"}` with a `ValueError` carrying the exact message below.
The `Except.error` constructor models the raised `ValueError`. -/
def normalize_audio_format (value : Option String) : Except String String :=
  let fmt := pyLower (pyStrip (pyOrString value "mp3"))
  if fmt = "mp3" ∨ fmt = "wav" then Except.ok fmt
  else Except.error "Format must be either 'mp3' or 'wav'."

/-! ## Filesystem and external-tool model -/

/-- A directory path, as a list of components. -/
abbrev DirPath := List String

/-- A file, as its containing directory plus its base name. -/
structure FsFile where
  dir : DirPath
  name : String
deriving DecidableEq, Repr

/-- The filesystem visible to one Workflow invocation: the set of existing
directories and the existing files.  `files` is kept in directory-listing
order, which is the (OS-dependent) order `Path.glob` enumerates entries in. -/
structure FS where
  dirs : List DirPath
  files : List FsFile
deriving DecidableEq, Repr

/-- `dir.mkdir(parents=True, exist_ok=True)`: create the directory if it is
absent. -/
def FS.mkdirp (fs : FS) (d : DirPath) : FS :=
  if d ∈ fs.dirs then fs else { fs with dirs := d :: fs.dirs }

/-- `shutil.rmtree(dir, ignore_errors=True)`: remove the directory and
everything below it. -/
def FS.rmtree (fs : FS) (d : DirPath) : FS :=
  { dirs := fs.dirs.filter (fun x => !(d.isPrefixOf x)),
    files := fs.files.filter (fun f => !(d.isPrefixOf f.dir)) }

/-- String suffix test, by character list (the `fnmatch` pattern `*.{ext}`
matches exactly the names having `"." ++ ext` as a suffix). -/
def strEndsWith (s suff : String) : Bool := suff.toList.isSuffixOf s.toList

/-- The first entry produced by `output_dir.glob(f"*.{ext}")` followed by
`break` (`app/core.py` lines 135–138): the first file of the directory
listing that sits directly in `dir` and whose name matches `*.{ext}`,
i.e. ends with `"." ++ ext`.  A file found this way exists, so the
subsequent `output_file.exists()` check cannot fail. -/
def FS.glob1 (fs : FS) (dir : DirPath) (ext : String) : Option FsFile :=
  fs.files.find? (fun f => f.dir == dir && strEndsWith f.name ("." ++ ext))

/-- Rendering of a directory path, for `str(path)` values handed to the
external tool. -/
def dirStr (d : DirPath) : String := String.intercalate "/" d

/-- Rendering of a file path. -/
def fileStr (f : FsFile) : String := dirStr f.dir ++ "/" ++ f.name

/-- Python exceptions distinguished by the code's `except` clauses. -/
inductive PyExc where
  | valueError (msg : String)
  | runtimeError (msg : String)
  | other (msg : String)
deriving DecidableEq, Repr

/-- `str(e)` of an exception. -/
def PyExc.message : PyExc → String
  | .valueError m => m
  | .runtimeError m => m
  | .other m => m

/-- The `FFmpegExtractAudio` postprocessor dict built at
`app/core.py` lines 115–120: for mp3 a fixed `preferredquality` of `"192"`
is requested. -/
structure Postprocessor where
  key : String
  preferredcodec : String
  preferredquality : Option String
deriving DecidableEq, Repr

def mkPostprocessor (fmt : String) : Postprocessor :=
  { key := "FFmpegExtractAudio",
    preferredcodec := fmt,
    preferredquality := if fmt = "mp3" then some "192" else none }

/-- The options dict handed to the download+transcode invocation
(`app/core.py` lines 122–129). -/
structure YdlOpts where
  format : String
  outtmpl : String
  postprocessors : List Postprocessor
deriving DecidableEq, Repr

/-- The opaque yt-dlp collaborator: `info` is the outcome of the
metadata-only `extract_info(url, download=False)` call (the extracted
`title`, possibly absent, or a raised exception), and `download` is the
filesystem effect of `ydl.download([url])`, possibly also raising. -/
structure Ydl where
  info : Except PyExc (Option String)
  download : YdlOpts → FS → FS × Option PyExc

/-! ## `AudioExtractor.extract_audio` (`app/core.py` lines 66–156)

`tempfile.mkdtemp(prefix="yt-extract-")` is modelled by a caller-supplied
directory name `tmpname` that the workflow creates; the stdlib contract
that the returned directory is fresh (`tmpname ∉ fs.dirs`) appears as a
hypothesis only in the theorems that need it. -/

/-- Output-directory selection, `app/core.py` lines 86–96: an explicit
output path wins (its parent is created if absent, no workspace is
allocated), else the configured `self.output_dir` (created if absent),
else a fresh ephemeral workspace.  Returns the chosen directory, the
`use_temp` flag and the updated filesystem. -/
def chooseOutputDir (output_path : Option FsFile) (self_output_dir : Option DirPath)
    (tmpname : DirPath) (fs : FS) : DirPath × Bool × FS :=
  match output_path with
  | some p => (p.dir, false, fs.mkdirp p.dir)
  | none =>
    match self_output_dir with
    | some d => (d, false, fs.mkdirp d)
    | none => (tmpname, true, fs.mkdirp tmpname)

/-- The `except Exception as e` handler at `app/core.py` lines 151–156:
delete the ephemeral workspace when one was allocated, re-raise
`ValueError`/`RuntimeError` as they are, and wrap anything else in
`RuntimeError("Failed to extract audio: ...")`. -/
def handleExtractExc (use_temp : Bool) (dir : DirPath) (e : PyExc) (fs : FS) :
    Except PyExc (FsFile × String) × FS :=
  let fs' := if use_temp then fs.rmtree dir else fs
  match e with
  | .valueError m => (Except.error (.valueError m), fs')
  | .runtimeError m => (Except.error (.runtimeError m), fs')
  | .other m => (Except.error (.runtimeError ("Failed to extract audio: " ++ m)), fs')

/-- `AudioExtractor.extract_audio` (`app/core.py` lines 66–156): normalize
the format, choose the output directory, fetch metadata, run the
download+transcode invocation, locate the produced file by extension glob,
and on failure clean up an ephemeral workspace before re-raising.
Returns the Python `(output_file, filename)` pair or the raised exception,
together with the final filesystem. -/
def extract_audio (self_output_dir : Option DirPath) (ydl : Ydl) (tmpname : DirPath)
    (url : String) (audio_format : String) (output_path : Option FsFile) (fs : FS) :
    Except PyExc (FsFile × String) × FS :=
  match normalize_audio_format (some audio_format) with
  | Except.error m => (Except.error (.valueError m), fs)
  | Except.ok fmt =>
    match chooseOutputDir output_path self_output_dir tmpname fs with
    | (dir, use_temp, fs₁) =>
      match ydl.info with
      | Except.error e => handleExtractExc use_temp dir e fs₁
      | Except.ok t =>
        let title := sanitize_filename (pyOrString t "audio")
        let outtmpl :=
          match output_path with
          | some p => fileStr p
          | none => dirStr dir ++ "/" ++ title ++ ".%(ext)s"
        let opts : YdlOpts :=
          { format := "bestaudio/best", outtmpl := outtmpl,
            postprocessors := [mkPostprocessor fmt] }
        match ydl.download opts fs₁ with
        | (fs₂, some e) => handleExtractExc use_temp dir e fs₂
        | (fs₂, none) =>
          match fs₂.glob1 dir fmt with
          | none =>
            handleExtractExc use_temp dir
              (.runtimeError (pyUpper fmt ++
                " was not created. Is ffmpeg installed and available on PATH?")) fs₂
          | some file => (Except.ok (file, title ++ "." ++ fmt), fs₂)

/-- `AudioExtractor.extract_audio_to_file` (`app/core.py` lines 158–177):
delegate to `extract_audio` with the explicit output path and return only
the derived display filename. -/
def extract_audio_to_file (self_output_dir : Option DirPath) (ydl : Ydl)
    (tmpname : DirPath) (url : String) (output_file : FsFile)
    (audio_format : String) (fs : FS) : Except PyExc String × FS :=
  match extract_audio self_output_dir ydl tmpname url audio_format (some output_file) fs with
  | (Except.ok (_, filename), fs') => (Except.ok filename, fs')
  | (Except.error e, fs') => (Except.error e, fs')

/-- A yt-dlp oracle whose metadata title is `"Test Video"` and whose
download step produces nothing (e.g. ffmpeg missing). -/
def ydlNoOutput : Ydl :=
  { info := Except.ok (some "Test Video"),
    download := fun _ fs => (fs, none) }

/-- The empty filesystem. -/
def fs0 : FS := { dirs := [], files := [] }

/-- A yt-dlp oracle whose download step raises a (non-HTTP) exception. -/
def ydlDownloadError : Ydl :=
  { info := Except.ok (some "Test Video"),
    download := fun _ fs => (fs, some (.other "network failure")) }

/-! ## The HTTP front-end (`app/main.py`) -/

/-- Exceptions in the HTTP front-end: a FastAPI `HTTPException` carrying a
status code and detail, or any other exception. -/
inductive MainExc where
  | httpExc (status : Nat) (detail : String)
  | otherExc (msg : String)
deriving DecidableEq, Repr

/-- `_normalize_audio_format` (`app/main.py` lines 83–87): same
normalization as the core, but an invalid value raises
`HTTPException(status_code=400, ...)`. -/
def mainNormalizeAudioFormat (value : Option String) : Except MainExc String :=
  let fmt := pyLower (pyStrip (pyOrString value "mp3"))
  if fmt = "mp3" ∨ fmt = "wav" then Except.ok fmt
  else Except.error (.httpExc 400 "Format must be either 'mp3' or 'wav'.")

/-- `_extract_audio_file_response` (`app/main.py` lines 90–165): always
allocate an ephemeral workspace via `tempfile.mkdtemp`, fetch metadata,
download+transcode, glob for the produced file.  A missing output raises
`HTTPException(status_code=500, ...)`; an `HTTPException` is re-raised
after removing the workspace; any other exception removes the workspace
and is re-raised as `HTTPException(status_code=400, str(e))`.  On success
the `FileResponse` payload is the file, the download name
`f"{title}.{audio_format}"` and the media type (the workspace is then
deleted only after streaming, by the background task). -/
def extractAudioFileResponse (ydl : Ydl) (tmpname : DirPath) (url : String)
    (audio_format : String) (fs : FS) :
    Except MainExc (FsFile × String × String) × FS :=
  let fs₁ := fs.mkdirp tmpname
  match ydl.info with
  | Except.error e => (Except.error (.httpExc 400 e.message), fs₁.rmtree tmpname)
  | Except.ok t =>
    let title := sanitize_filename (pyOrString t "audio")
    let outtmpl := dirStr tmpname ++ "/" ++ title ++ ".%(ext)s"
    let opts : YdlOpts :=
      { format := "bestaudio/best", outtmpl := outtmpl,
        postprocessors := [mkPostprocessor audio_format] }
    match ydl.download opts fs₁ with
    | (fs₂, some e) => (Except.error (.httpExc 400 e.message), fs₂.rmtree tmpname)
    | (fs₂, none) =>
      match fs₂.glob1 tmpname audio_format with
      | none =>
        (Except.error (.httpExc 500 (pyUpper audio_format ++
          " was not created. Is ffmpeg installed and available on PATH?")),
         fs₂.rmtree tmpname)
      | some p =>
        let download_name := title ++ "." ++ audio_format
        let media_type := if audio_format = "mp3" then "audio/mpeg" else "audio/wav"
        (Except.ok (p, download_name, media_type), fs₂)

/-- An HTTP response of the extract endpoints: a streamed file, or the JSON
error body `{detail, request_id}` produced by the exception handlers
(`app/main.py` lines 197–219). -/
inductive HttpResponse where
  | fileResp (path : FsFile) (filename : String) (mediaType : String)
  | jsonErr (status : Nat) (detail : String) (request_id : String)
deriving DecidableEq, Repr

/-- The status code of an error response. -/
def HttpResponse.errStatus : HttpResponse → Option Nat
  | .jsonErr s _ _ => some s
  | .fileResp _ _ _ => none

/-- The two exception handlers of `app/main.py`: an `HTTPException` becomes
the JSON body `{detail, request_id}` with its own status code (lines
197–208, `http_exception_handler`), and any other exception escaping all
route handling becomes status 500 with detail `"Internal server error"`
(lines 211–219, the unclassified-failure handler). -/
def handleRouteException (e : MainExc) (request_id : String) : HttpResponse :=
  match e with
  | .httpExc s d => .jsonErr s d request_id
  | .otherExc _ => .jsonErr 500 "Internal server error" request_id

/-- `GET /api/extract` (`app/main.py` lines 231–235) composed with the
exception handlers: `_normalize_audio_format` first, then
`_extract_audio_file_response`; any exception raised is dispatched by
`handleRouteException`. -/
def apiExtractGet (url : String) (format : Option String) (request_id : String)
    (ydl : Ydl) (tmpname : DirPath) (fs : FS) : HttpResponse × FS :=
  match mainNormalizeAudioFormat format with
  | Except.error e => (handleRouteException e request_id, fs)
  | Except.ok fmt =>
    match extractAudioFileResponse ydl tmpname url fmt fs with
    | (Except.ok (p, name, mt), fs') => (.fileResp p name mt, fs')
    | (Except.error e, fs') => (handleRouteException e request_id, fs')

/-! ## URL redaction for logs (`app/main.py` lines 50–65)

`urllib.parse` is embedded at the string level so that the function's
`try/except` structure — including the `except Exception: return url`
fallback that returns the URL unredacted when `urlparse` raises — is
part of the model.  `pyUrlparse` follows CPython's `urlsplit`/`urlparse`:
the unsafe-byte scrub, the scheme split, the netloc split with the
`"Invalid IPv6 URL"` `ValueError` on mismatched brackets, the fragment,
query and params splits.  Not modelled (both only affect inputs outside
the analysed behaviours): `_checknetloc`'s NFKC check, which can only
raise on non-ASCII netlocs, and the bracketed-host validation added in
CPython 3.11, which rejects some additional bracket netlocs (on those the
real function also takes the fallback).  `parse_qsl`'s `unquote_plus` and
`urlencode`'s `quote_plus` are modelled as the identity, which is exact
for parameter names and values free of `%`/`+` escapes. -/

/-- Split a list at the first occurrence of `c` (Python `str.partition`
and `str.find`-based splits); `none` when `c` does not occur. -/
def splitFirst (c : Char) : List Char → Option (List Char × List Char)
  | [] => none
  | a :: t =>
    if a == c then some ([], t)
    else
      match splitFirst c t with
      | none => none
      | some (pre, post) => some (a :: pre, post)

/-- Python `str.split(sep)` for a one-character separator. -/
def splitListOn (c : Char) : List Char → List (List Char)
  | [] => [[]]
  | a :: t =>
    if a == c then [] :: splitListOn c t
    else
      match splitListOn c t with
      | [] => [[a]]
      | h :: r => (a :: h) :: r

/-- An ASCII letter (`url[0].isascii() and url[0].isalpha()`). -/
def isAsciiAlpha (c : Char) : Bool :=
  ('a' ≤ c && c ≤ 'z') || ('A' ≤ c && c ≤ 'Z')

/-- `urllib.parse.scheme_chars`: letters, digits, `+`, `-`, `.`. -/
def isSchemeChar (c : Char) : Bool :=
  ('a' ≤ c && c ≤ 'z') || ('A' ≤ c && c ≤ 'Z') || ('0' ≤ c && c ≤ '9') ||
  c == '+' || c == '-' || c == '.'

/-- The result 6-tuple of `urllib.parse.urlparse`. -/
structure ParsedUrl where
  scheme : String
  netloc : String
  path : String
  params : String
  query : String
  fragment : String
deriving DecidableEq, Repr

/-- `_splitparams`: split the params off the last path segment at the
first `;` there (or off the whole path when it has no `/`). -/
def splitParams (p : List Char) : List Char × List Char :=
  if p.contains ';' then
    if p.contains '/' then
      let seg := (p.reverse.takeWhile (fun c => !(c == '/'))).reverse
      let pre := p.take (p.length - seg.length)
      match splitFirst ';' seg with
      | none => (p, [])
      | some (a, b) => (pre ++ a, b)
    else
      match splitFirst ';' p with
      | none => (p, [])
      | some (a, b) => (a, b)
  else (p, [])

/-- `urllib.parse.urlparse` (via `urlsplit`): scrub tab/CR/LF, split the
scheme at the first `:` when the prefix is an ASCII letter followed by
scheme characters, split the netloc after `//` up to the first of
`/?#` — raising `ValueError("Invalid IPv6 URL")` on a `[` without `]` or
vice versa — then split fragment (first `#`), query (first `?`) and
params.  The `Except.error` constructor models the raised `ValueError`. -/
def pyUrlparse (url : String) : Except String ParsedUrl :=
  let l := url.toList.filter (fun c => !(c == '\t' || c == '\r' || c == '\n'))
  let sr : List Char × List Char :=
    match splitFirst ':' l with
    | some (p0 :: pre, post) =>
      if isAsciiAlpha p0 && (p0 :: pre).all isSchemeChar
      then ((p0 :: pre).map pyLowerChar, post) else ([], l)
    | _ => ([], l)
  match sr with
  | (scheme, rest) =>
    let ns : Except String (List Char × List Char) :=
      match rest with
      | '/' :: '/' :: after =>
        let netloc := after.takeWhile (fun c => !(c == '/' || c == '?' || c == '#'))
        let rest' := after.dropWhile (fun c => !(c == '/' || c == '?' || c == '#'))
        if (netloc.contains '[' && !(netloc.contains ']')) ||
           (netloc.contains ']' && !(netloc.contains '[')) then
          Except.error "Invalid IPv6 URL"
        else Except.ok (netloc, rest')
      | _ => Except.ok ([], rest)
    match ns with
    | Except.error m => Except.error m
    | Except.ok (netloc, rest₂) =>
      let fr : List Char × List Char :=
        match splitFirst '#' rest₂ with
        | some (a, b) => (a, b)
        | none => (rest₂, [])
      match fr with
      | (rest₃, fragment) =>
        let qr : List Char × List Char :=
          match splitFirst '?' rest₃ with
          | some (a, b) => (a, b)
          | none => (rest₃, [])
        match qr with
        | (pathPar, query) =>
          match splitParams pathPar with
          | (path, params) =>
            Except.ok { scheme := String.mk scheme, netloc := String.mk netloc,
                        path := String.mk path, params := String.mk params,
                        query := String.mk query, fragment := String.mk fragment }

/-- `urllib.parse.parse_qsl(qs)` with its defaults (`keep_blank_values =
False`, separator `&`): split on `&`, skip empty fields, skip fields
without `=` and fields with a blank value; `unquote_plus` is modelled as
the identity. -/
def parseQsl (qs : String) : List (String × String) :=
  (splitListOn '&' qs.toList).filterMap (fun nv =>
    if nv = [] then none
    else
      match splitFirst '=' nv with
      | none => none
      | some (name, value) =>
        if value = [] then none
        else some (String.mk name, String.mk value))

/-- String prefix test, by character list. -/
def strStartsWith (s pre : String) : Bool := pre.toList.isPrefixOf s.toList

/-- `urllib.parse.urlunparse` (via `urlunsplit`): rejoin params with `;`,
re-attach `//netloc` (inserting a `/` before a relative path), then
scheme, query and fragment, each only when non-empty. -/
def pyUrlunparse (scheme netloc path params query fragment : String) : String :=
  let url₀ := if params ≠ "" then path ++ ";" ++ params else path
  let url₁ :=
    if netloc ≠ "" ∨ strStartsWith url₀ "//" then
      "//" ++ netloc ++
        (if url₀ ≠ "" ∧ ¬ strStartsWith url₀ "/" then "/" ++ url₀ else url₀)
    else url₀
  let url₂ := if scheme ≠ "" then scheme ++ ":" ++ url₁ else url₁
  let url₃ := if query ≠ "" then url₂ ++ "?" ++ query else url₂
  if fragment ≠ "" then url₃ ++ "#" ++ fragment else url₃

/-- `_redact_youtube_url_for_logs` (`app/main.py` lines 50–65): parse the
URL; keep only the first value of the `v` query parameter
(`parse_qs(u.query)` holds only non-blank values, and `urlencode` rebuilds
`v=<value>`); unparse with scheme, netloc and path kept and params and
fragment dropped.  The `except Exception` fallback (lines 64–65) returns
the URL unchanged — unredacted — whenever the parser raises. -/
def redactYoutubeUrlForLogs (url : String) : String :=
  match pyUrlparse url with
  | Except.error _ => url
  | Except.ok u =>
    let q := parseQsl u.query
    let keep :=
      match q.filter (fun kv => kv.1 == "v") with
      | [] => ""
      | kv :: _ => "v=" ++ kv.2
    pyUrlunparse u.scheme u.netloc u.path "" keep ""

/-! ## The tool-invocation (MCP) server (`app/mcp_server.py`) -/

/-- The keyword arguments `app/mcp_server.py` lines 43–50 pass to
`AudioExtractor(...)`.  An outer `some` means the keyword was supplied at
the call site (its payload being the value passed, which may itself be
`None`). -/
structure InitKwargs where
  output_dir : Option (Option DirPath) := none
  cookies_file : Option (Option String) := none
  cookies_from_browser : Option (Option String) := none
  user_agent : Option (Option String) := none
  proxy : Option (Option String) := none

/-- `AudioExtractor.__init__` (`app/core.py` lines 18–25) accepts only the
`output_dir` keyword.  Calling it with any other keyword raises
`TypeError` naming the first unexpected keyword in call order (message as
produced by CPython ≥ 3.10).  On success the extractor is just its
`output_dir` field. -/
def audioExtractorInit (kw : InitKwargs) : Except PyExc (Option DirPath) :=
  if kw.cookies_file.isSome then
    Except.error (.other
      "AudioExtractor.__init__() got an unexpected keyword argument 'cookies_file'")
  else if kw.cookies_from_browser.isSome then
    Except.error (.other
      "AudioExtractor.__init__() got an unexpected keyword argument 'cookies_from_browser'")
  else if kw.user_agent.isSome then
    Except.error (.other
      "AudioExtractor.__init__() got an unexpected keyword argument 'user_agent'")
  else if kw.proxy.isSome then
    Except.error (.other
      "AudioExtractor.__init__() got an unexpected keyword argument 'proxy'")
  else Except.ok (kw.output_dir.getD none)

/-- The result dict of the MCP tools: `{success, file_path?, filename?,
error?}`. -/
structure McpResult where
  success : Bool
  file_path : Option String := none
  filename : Option String := none
  error : Option String := none
deriving DecidableEq, Repr

/-- The `except` clauses of the MCP tools (`app/mcp_server.py` lines
67–81): `ValueError` → `"Invalid input: ..."`, `RuntimeError` →
`"Extraction failed: ..."`, anything else → `"Unexpected error: ..."`. -/
def mcpErrorString : PyExc → String
  | .valueError m => "Invalid input: " ++ m
  | .runtimeError m => "Extraction failed: " ++ m
  | .other m => "Unexpected error: " ++ m

/-- `Path(output_path)`, split into directory components and base name. -/
def parsePath (s : String) : FsFile :=
  let parts := s.splitOn "/"
  { dir := parts.dropLast, name := parts.getLast! }

/-- The `extract_audio` MCP tool (`app/mcp_server.py` lines 21–81): build an
`AudioExtractor` passing the `cookies_file`, `cookies_from_browser`,
`user_agent` and `proxy` keywords (always, even when their values are
`None`), then delegate to `extract_audio_to_file` or `extract_audio`;
every exception is normalized into the `error` field. -/
def mcpExtractAudio (url : String) (format : String) (output_path : Option String)
    (cookies_file cookies_from_browser user_agent proxy : Option String)
    (ydl : Ydl) (tmpname : DirPath) (fs : FS) : McpResult × FS :=
  match audioExtractorInit
      { cookies_file := some cookies_file,
        cookies_from_browser := some cookies_from_browser,
        user_agent := some user_agent,
        proxy := some proxy } with
  | Except.error e => ({ success := false, error := some (mcpErrorString e) }, fs)
  | Except.ok extractor_output_dir =>
    match output_path with
    | some op =>
      let output_file := parsePath op
      match extract_audio_to_file extractor_output_dir ydl tmpname url output_file format fs with
      | (Except.ok filename, fs') =>
        ({ success := true, file_path := some (fileStr output_file),
           filename := some filename }, fs')
      | (Except.error e, fs') =>
        ({ success := false, error := some (mcpErrorString e) }, fs')
    | none =>
      match extract_audio extractor_output_dir ydl tmpname url format none fs with
      | (Except.ok (output_file, filename), fs') =>
        ({ success := true, file_path := some (fileStr output_file),
           filename := some filename }, fs')
      | (Except.error e, fs') =>
        ({ success := false, error := some (mcpErrorString e) }, fs')

/-! ## Concrete fixtures used by witnesses and counterexamples -/

/-- An explicit output path `out/output.mp3`. -/
def outFixture : FsFile := { dir := ["out"], name := "output.mp3" }

/-- A pre-existing `.mp3` file in the same directory, listed before
`output.mp3` in the directory listing. -/
def preexistingFixture : FsFile := { dir := ["out"], name := "aa_existing.mp3" }

/-- A filesystem in which the explicit output directory already exists and
already holds another `.mp3` file. -/
def fsOutFixture : FS := { dirs := [["out"]], files := [preexistingFixture] }

/-! ## Helper lemmas -/

set_option maxRecDepth 4000

/-- Membership is preserved backwards through `stripCharsList`. -/
theorem mem_of_mem_stripCharsList {q : Char → Bool} {l : List Char} {c : Char}
    (h : c ∈ stripCharsList q l) : c ∈ l := by
  unfold stripCharsList at h
  rw [List.mem_reverse] at h
  have h₁ := (List.dropWhile_sublist q).subset h
  rw [List.mem_reverse] at h₁
  exact (List.dropWhile_sublist q).subset h₁

/-- Every character of `collapseWs l` is a space or a character of `l`. -/
theorem mem_collapseWs : ∀ {l : List Char} {c : Char}, c ∈ collapseWs l → c = ' ' ∨ c ∈ l := by
  intro l
  induction l with
  | nil => intro c h; simp [collapseWs] at h
  | cons a t ih =>
    intro c h
    cases t with
    | nil =>
      simp only [collapseWs] at h
      split at h
      · simp at h; exact Or.inl h
      · simp at h; exact Or.inr (by simp [h])
    | cons b t' =>
      simp only [collapseWs] at h
      split at h
      · split at h
        · rcases ih h with h' | h'
          · exact Or.inl h'
          · exact Or.inr (List.mem_cons_of_mem _ h')
        · rcases List.mem_cons.mp h with h' | h'
          · exact Or.inl h'
          · rcases ih h' with h'' | h''
            · exact Or.inl h''
            · exact Or.inr (List.mem_cons_of_mem _ h'')
      · rcases List.mem_cons.mp h with h' | h'
        · exact Or.inr (by simp [h'])
        · rcases ih h' with h'' | h''
          · exact Or.inl h''
          · exact Or.inr (List.mem_cons_of_mem _ h'')

/-- Stripping a list all of whose characters are stripped yields `[]`. -/
theorem stripCharsList_eq_nil_of_forall {q : Char → Bool} {l : List Char}
    (h : ∀ c ∈ l, q c = true) : stripCharsList q l = [] := by
  unfold stripCharsList
  have h₁ : l.dropWhile q = [] := List.dropWhile_eq_nil_iff.mpr h
  rw [h₁]
  rfl

/-- Every character of the literal `"audio"` is in the allowed class. -/
theorem audio_chars_allowed : ∀ c ∈ "audio".toList, isAllowedChar c = true := by decide

/-- `mkdir(..., exist_ok=True)` makes the directory exist. -/
theorem mem_mkdirp_self (fs : FS) (d : DirPath) : d ∈ (fs.mkdirp d).dirs := by
  unfold FS.mkdirp
  split
  · assumption
  · exact List.mem_cons_self _ _

/-- A path is a prefix of itself (`List.isPrefixOf`). -/
theorem isPrefixOf_self_eq_true : ∀ (l : DirPath), l.isPrefixOf l = true := by
  intro l
  induction l with
  | nil => rfl
  | cons a t ih => simp [List.isPrefixOf, ih]

/-- `rmtree` removes the deleted directory from the filesystem. -/
theorem not_mem_rmtree_self (fs : FS) (d : DirPath) : d ∉ (fs.rmtree d).dirs := by
  unfold FS.rmtree
  intro h
  have h₂ := (List.mem_filter.mp h).2
  rw [isPrefixOf_self_eq_true] at h₂
  simp at h₂

/-! ## Claims about the pure helpers -/

/-- C2: the sanitizer emits only ASCII letters, digits, spaces, hyphens,
underscores, periods, parentheses and square brackets; its output length is
at most 120; the empty input and every input made exclusively of characters
outside the allowed class map to exactly `"audio"`;
`"Test/Video\\Title"` maps to `"TestVideoTitle"`; `"  Test  Video  "` maps
to `"Test Video"`; and 200 copies of `'a'` map to 120 copies of `'a'`. -/
theorem sanitize_filename_spec :
    (∀ s : String, (sanitize_filename s).toList.all isAllowedChar = true
      ∧ (sanitize_filename s).length ≤ 120)
    ∧ (∀ s : String, s.toList.all (fun c => !isAllowedChar c) = true →
        sanitize_filename s = "audio")
    ∧ sanitize_filename "" = "audio"
    ∧ sanitize_filename "Test/Video\\Title" = "TestVideoTitle"
    ∧ sanitize_filename "  Test  Video  " = "Test Video"
    ∧ sanitize_filename (String.mk (List.replicate 200 'a'))
        = String.mk (List.replicate 120 'a') := by
  refine ⟨?_, ?_, by decide, by decide, by decide, by decide⟩
  · intro s
    constructor
    · rw [List.all_eq_true]
      intro c hc
      have hc' : c ∈ sanitizeList s.toList 120 := hc
      simp only [sanitizeList] at hc'
      have hmem := List.mem_of_mem_take hc'
      split at hmem
      · exact audio_chars_allowed c hmem
      · have hmem' := mem_of_mem_stripCharsList hmem
        exact (List.mem_filter.mp hmem').2
    · show (sanitizeList s.toList 120).length ≤ 120
      simp only [sanitizeList]
      exact List.length_take_le 120 _
  · intro s h
    rw [List.all_eq_true] at h
    have hall : ∀ c ∈ List.filter isAllowedChar (collapseWs (stripCharsList pyIsSpace s.toList)),
        isPunctStripChar c = true := by
      intro c hcmem
      rcases List.mem_filter.mp hcmem with ⟨hc1, hc2⟩
      rcases mem_collapseWs hc1 with h' | h'
      · subst h'; rfl
      · have hil := h c (mem_of_mem_stripCharsList h')
        simp [hc2] at hil
    have hnil := stripCharsList_eq_nil_of_forall hall
    show String.mk (sanitizeList s.toList 120) = "audio"
    simp only [sanitizeList, hnil]
    decide

/-- C2 witness: the sanitizer sends the all-illegal input `"///"` to
`"audio"`. -/
theorem sanitize_filename_spec_witness : sanitize_filename "///" = "audio" :=
  sanitize_filename_spec.2.1 "///" (by decide)

/-- C5: the normalizer maps `"MP3"`, `"mp3"`, `""` and `None` to `"mp3"`
and `"WAV"` to `"wav"`, and fails on every other value — such as `"ogg"` —
with a `ValueError` carrying exactly
`"Format must be either 'mp3' or 'wav'."`. -/
theorem normalize_audio_format_spec :
    normalize_audio_format (some "MP3") = Except.ok "mp3"
    ∧ normalize_audio_format (some "mp3") = Except.ok "mp3"
    ∧ normalize_audio_format (some "") = Except.ok "mp3"
    ∧ normalize_audio_format none = Except.ok "mp3"
    ∧ normalize_audio_format (some "WAV") = Except.ok "wav"
    ∧ normalize_audio_format (some "ogg")
        = Except.error "Format must be either 'mp3' or 'wav'."
    ∧ ∀ v : Option String,
        normalize_audio_format v = Except.ok "mp3"
        ∨ normalize_audio_format v = Except.ok "wav"
        ∨ normalize_audio_format v = Except.error "Format must be either 'mp3' or 'wav'." := by
  refine ⟨rfl, rfl, rfl, rfl, rfl, rfl, ?_⟩
  intro v
  simp only [normalize_audio_format]
  split
  next hcond =>
    rcases hcond with h | h
    · exact Or.inl (by rw [h])
    · exact Or.inr (Or.inl (by rw [h]))
  next => exact Or.inr (Or.inr rfl)

/-- C8: normalizing is idempotent — any value the normalizer accepts is
returned unchanged when normalized again. -/
theorem normalize_audio_format_idempotent (v : Option String) (f : String)
    (h : normalize_audio_format v = Except.ok f) :
    normalize_audio_format (some f) = Except.ok f := by
  have hf : f = "mp3" ∨ f = "wav" := by
    simp only [normalize_audio_format] at h
    split at h
    next hcond =>
      injection h with h'
      subst h'
      exact hcond
    next => exact Except.noConfusion h
  rcases hf with rfl | rfl <;> rfl

/-- C8 witness: `"MP3"` normalizes to `"mp3"`, which re-normalizes to
itself. -/
theorem normalize_audio_format_idempotent_witness :
    normalize_audio_format (some "mp3") = Except.ok "mp3" :=
  normalize_audio_format_idempotent (some "MP3") "mp3" rfl

/-! ## Claims about the extraction Workflow (`app/core.py`) -/

/-- C1: when `extract_audio` runs with no explicit output path and no
configured output directory and the download+transcode step leaves no file
with the requested extension in the ephemeral workspace, the call raises a
`RuntimeError` whose message states the format was not created, the
workspace is deleted before the failure surfaces, and the workspace
directory no longer exists in the filesystem the call returns. -/
theorem extract_audio_no_output_cleanup
    (ydl : Ydl) (tmpname : DirPath) (url fmtIn fmt : String) (t : Option String)
    (fs fs₂ : FS)
    (hfmt : normalize_audio_format (some fmtIn) = Except.ok fmt)
    (hinfo : ydl.info = Except.ok t)
    (hdl : ∀ o, ydl.download o (fs.mkdirp tmpname) = (fs₂, none))
    (hglob : fs₂.glob1 tmpname fmt = none) :
    extract_audio none ydl tmpname url fmtIn none fs
      = (Except.error (.runtimeError (pyUpper fmt ++
          " was not created. Is ffmpeg installed and available on PATH?")),
         fs₂.rmtree tmpname)
    ∧ tmpname ∉ (extract_audio none ydl tmpname url fmtIn none fs).2.dirs := by
  have hmain : extract_audio none ydl tmpname url fmtIn none fs
      = (Except.error (.runtimeError (pyUpper fmt ++
          " was not created. Is ffmpeg installed and available on PATH?")),
         fs₂.rmtree tmpname) := by
    simp [extract_audio, chooseOutputDir, hfmt, hinfo, hdl, hglob, handleExtractExc]
  refine ⟨hmain, ?_⟩
  rw [hmain]
  exact not_mem_rmtree_self fs₂ tmpname

/-- C1 witness: with a download step that produces nothing, requesting mp3
with an empty filesystem ends in the `RuntimeError` and the workspace
`tmp/yt-extract-a1b2` is gone. -/
theorem extract_audio_no_output_cleanup_witness :
    extract_audio none ydlNoOutput ["tmp", "yt-extract-a1b2"]
        "https://www.youtube.com/watch?v=x" "mp3" none fs0
      = (Except.error (.runtimeError
          "MP3 was not created. Is ffmpeg installed and available on PATH?"),
         (fs0.mkdirp ["tmp", "yt-extract-a1b2"]).rmtree ["tmp", "yt-extract-a1b2"])
    ∧ ["tmp", "yt-extract-a1b2"] ∉
        (extract_audio none ydlNoOutput ["tmp", "yt-extract-a1b2"]
          "https://www.youtube.com/watch?v=x" "mp3" none fs0).2.dirs :=
  extract_audio_no_output_cleanup ydlNoOutput ["tmp", "yt-extract-a1b2"]
    "https://www.youtube.com/watch?v=x" "mp3" "mp3" (some "Test Video")
    fs0 (fs0.mkdirp ["tmp", "yt-extract-a1b2"]) rfl rfl (fun _ => rfl) rfl

/-- C6: output-directory selection — an explicit output path makes its
parent the output directory (created if absent, no workspace allocated); a
configured default output directory is used next (created if absent);
otherwise a fresh ephemeral workspace is created, and when the
`tempfile.mkdtemp` name is fresh the workspace is genuinely new. -/
theorem choose_output_dir_spec (fs : FS) (tmpname : DirPath) :
    (∀ (p : FsFile) (cfg : Option DirPath),
        chooseOutputDir (some p) cfg tmpname fs = (p.dir, false, fs.mkdirp p.dir)
        ∧ p.dir ∈ (fs.mkdirp p.dir).dirs)
    ∧ (∀ d : DirPath,
        chooseOutputDir none (some d) tmpname fs = (d, false, fs.mkdirp d)
        ∧ d ∈ (fs.mkdirp d).dirs)
    ∧ (chooseOutputDir none none tmpname fs = (tmpname, true, fs.mkdirp tmpname)
        ∧ tmpname ∈ (fs.mkdirp tmpname).dirs
        ∧ (tmpname ∉ fs.dirs → (fs.mkdirp tmpname).dirs = tmpname :: fs.dirs)) := by
  refine ⟨fun p cfg => ⟨rfl, mem_mkdirp_self fs p.dir⟩,
    fun d => ⟨rfl, mem_mkdirp_self fs d⟩,
    rfl, mem_mkdirp_self fs tmpname, fun h => ?_⟩
  unfold FS.mkdirp
  rw [if_neg h]

/-- C6 witness: on the empty filesystem the ephemeral branch allocates the
fresh workspace. -/
theorem choose_output_dir_spec_witness :
    chooseOutputDir none none ["tmp", "yt-extract-w"] fs0
      = (["tmp", "yt-extract-w"], true, fs0.mkdirp ["tmp", "yt-extract-w"])
    ∧ (fs0.mkdirp ["tmp", "yt-extract-w"]).dirs = ["tmp", "yt-extract-w"] :: fs0.dirs :=
  ⟨(choose_output_dir_spec fs0 ["tmp", "yt-extract-w"]).2.2.1,
   (choose_output_dir_spec fs0 ["tmp", "yt-extract-w"]).2.2.2.2 (by decide)⟩

/-- C9: two Workflow invocations that both take the ephemeral-workspace
branch use exactly their `tempfile.mkdtemp` results as output directories;
each invocation's directory is created at its `mkdtemp` step, and under the
`mkdtemp` contract (the created directory did not previously exist —
collision-resistant naming, not a counter) the invocation whose `mkdtemp`
runs while the other workspace exists necessarily receives a distinct
path, so the two invocations never share an output directory. -/
theorem ephemeral_workspaces_distinct (fs₁ fs₂ : FS) (n₁ n₂ : DirPath)
    (h₁ : n₁ ∉ fs₁.dirs) (hlive : n₁ ∈ fs₂.dirs) (h₂ : n₂ ∉ fs₂.dirs) :
    (chooseOutputDir none none n₁ fs₁ = (n₁, true, fs₁.mkdirp n₁)
      ∧ (fs₁.mkdirp n₁).dirs = n₁ :: fs₁.dirs)
    ∧ (chooseOutputDir none none n₂ fs₂ = (n₂, true, fs₂.mkdirp n₂)
      ∧ (fs₂.mkdirp n₂).dirs = n₂ :: fs₂.dirs)
    ∧ n₁ ≠ n₂ := by
  refine ⟨⟨rfl, ?_⟩, ⟨rfl, ?_⟩, ?_⟩
  · unfold FS.mkdirp; rw [if_neg h₁]
  · unfold FS.mkdirp; rw [if_neg h₂]
  · intro he
    subst he
    exact h₂ hlive

/-- C9 witness: a first invocation creates `tmp/yt-extract-aaaa` on the
empty filesystem; a second invocation whose `mkdtemp` runs while that
workspace exists gets `tmp/yt-extract-bbbb`, and the two differ. -/
theorem ephemeral_workspaces_distinct_witness :
    (chooseOutputDir none none ["tmp", "yt-extract-aaaa"] fs0
        = (["tmp", "yt-extract-aaaa"], true, fs0.mkdirp ["tmp", "yt-extract-aaaa"])
      ∧ (fs0.mkdirp ["tmp", "yt-extract-aaaa"]).dirs
        = ["tmp", "yt-extract-aaaa"] :: fs0.dirs)
    ∧ (chooseOutputDir none none ["tmp", "yt-extract-bbbb"]
          (fs0.mkdirp ["tmp", "yt-extract-aaaa"])
        = (["tmp", "yt-extract-bbbb"], true,
           (fs0.mkdirp ["tmp", "yt-extract-aaaa"]).mkdirp ["tmp", "yt-extract-bbbb"])
      ∧ ((fs0.mkdirp ["tmp", "yt-extract-aaaa"]).mkdirp ["tmp", "yt-extract-bbbb"]).dirs
        = ["tmp", "yt-extract-bbbb"] :: (fs0.mkdirp ["tmp", "yt-extract-aaaa"]).dirs)
    ∧ ["tmp", "yt-extract-aaaa"] ≠ ["tmp", "yt-extract-bbbb"] :=
  ephemeral_workspaces_distinct fs0 (fs0.mkdirp ["tmp", "yt-extract-aaaa"])
    ["tmp", "yt-extract-aaaa"] ["tmp", "yt-extract-bbbb"]
    (by decide) (by decide) (by decide)

/-- C10: with an explicit `output_path`, `extract_audio` returns the first
glob match for `*.<format>` in the path's parent directory together with
the display filename `<sanitized-title>.<format>`; concretely, when
another `.mp3` file is listed first in that directory the returned path is
that other file, not `output_path`, and the returned filename is derived
from the video title rather than from `output_path`'s basename — so
`extract_audio_to_file` can return a filename differing from the basename
of its `output_file` argument. -/
theorem extract_audio_explicit_path_spec
    (self_output_dir : Option DirPath) (ydl : Ydl) (tmpname : DirPath)
    (url fmtIn fmt : String) (t : Option String) (p q : FsFile) (fs fs₂ : FS)
    (hfmt : normalize_audio_format (some fmtIn) = Except.ok fmt)
    (hinfo : ydl.info = Except.ok t)
    (hdl : ∀ o, ydl.download o (fs.mkdirp p.dir) = (fs₂, none))
    (hglob : fs₂.glob1 p.dir fmt = some q) :
    (extract_audio self_output_dir ydl tmpname url fmtIn (some p) fs
      = (Except.ok (q, sanitize_filename (pyOrString t "audio") ++ "." ++ fmt), fs₂)
    ∧ extract_audio_to_file self_output_dir ydl tmpname url p fmtIn fs
      = (Except.ok (sanitize_filename (pyOrString t "audio") ++ "." ++ fmt), fs₂))
    ∧ ((extract_audio none ydlNoOutput ["tmp", "t"] "u" "mp3" (some outFixture) fsOutFixture).1
        = Except.ok (preexistingFixture, "Test Video.mp3")
      ∧ preexistingFixture ≠ outFixture
      ∧ (extract_audio_to_file none ydlNoOutput ["tmp", "t"] "u" outFixture "mp3" fsOutFixture).1
        = Except.ok "Test Video.mp3"
      ∧ "Test Video.mp3" ≠ outFixture.name) := by
  have hmain : extract_audio self_output_dir ydl tmpname url fmtIn (some p) fs
      = (Except.ok (q, sanitize_filename (pyOrString t "audio") ++ "." ++ fmt), fs₂) := by
    simp only [extract_audio, chooseOutputDir, hfmt, hinfo, hdl, hglob]
  refine ⟨⟨hmain, ?_⟩, rfl, by decide, rfl, by decide⟩
  unfold extract_audio_to_file
  rw [hmain]

/-- C10 witness: the general statement applied to the concrete fixture
directory that already holds `aa_existing.mp3`. -/
theorem extract_audio_explicit_path_spec_witness :
    extract_audio none ydlNoOutput ["tmp", "t"] "u" "wav" (some outFixture)
        { dirs := [["out"]], files := [{ dir := ["out"], name := "old.wav" }] }
      = (Except.ok ({ dir := ["out"], name := "old.wav" }, "Test Video.wav"),
         { dirs := [["out"]], files := [{ dir := ["out"], name := "old.wav" }] }) :=
  (extract_audio_explicit_path_spec none ydlNoOutput ["tmp", "t"] "u" "wav" "wav"
    (some "Test Video") outFixture { dir := ["out"], name := "old.wav" }
    { dirs := [["out"]], files := [{ dir := ["out"], name := "old.wav" }] }
    { dirs := [["out"]], files := [{ dir := ["out"], name := "old.wav" }] }
    rfl rfl (fun _ => rfl) rfl).1.1

/-! ## Claims about the front-ends -/

/-- C3 (code bug): the MCP `extract_audio` tool called with format `"ogg"`
returns (rather than raises) a result with `success = false`, but its
error is `"Unexpected error: ..."` — the `AudioExtractor(...)` call inside
the tool passes `cookies_file`/`cookies_from_browser`/`user_agent`/`proxy`
keywords that `core.AudioExtractor.__init__` does not accept, so a
`TypeError` is raised before format validation ever runs — and not the
`"Invalid input: Format must be either 'mp3' or 'wav'."` that the claim
(and the repository's own tests) expect. -/
theorem mcp_extract_audio_ogg_unexpected_error :
    (mcpExtractAudio "https://www.youtube.com/watch?v=dQw4w9WgXcQ" "ogg" none
        none none none none ydlNoOutput ["tmp", "yt-extract-a1b2"] fs0).1
      = { success := false,
          error := some "Unexpected error: AudioExtractor.__init__() got an unexpected keyword argument 'cookies_file'" }
    ∧ (mcpExtractAudio "https://www.youtube.com/watch?v=dQw4w9WgXcQ" "ogg" none
        none none none none ydlNoOutput ["tmp", "yt-extract-a1b2"] fs0).1.error
      ≠ some "Invalid input: Format must be either 'mp3' or 'wav'." :=
  ⟨rfl, by decide⟩

/-- C4 counterexample: an extract request whose transcoder produces no
output is answered with status 500, not 400 —
`_extract_audio_file_response` raises `HTTPException(status_code=500, ...)`
for this case and the handler preserves that status. -/
theorem api_extract_no_output_status_500 :
    (apiExtractGet "https://www.youtube.com/watch?v=x" (some "mp3") "req-1" ydlNoOutput
        ["tmp", "yt-extract-a1b2"] fs0).1
      = .jsonErr 500 "MP3 was not created. Is ffmpeg installed and available on PATH?" "req-1"
    ∧ (apiExtractGet "https://www.youtube.com/watch?v=x" (some "mp3") "req-1" ydlNoOutput
        ["tmp", "yt-extract-a1b2"] fs0).1.errStatus ≠ some 400 :=
  ⟨rfl, by decide⟩

/-- C4 (amended): every failing HTTP extract request is answered with the
JSON body `{detail, request_id}`; validation failures get status 400, as
do delegated-tool failures — metadata-fetch exceptions and download
exceptions alike — while the transcoder-produced-no-output case gets
status 500, and unclassified failures dispatched by the catch-all handler
also get status 500. -/
theorem api_extract_error_contract (url : String) (format : Option String)
    (request_id : String) (ydl : Ydl) (tmpname : DirPath) (fs : FS) :
    ((∃ p n mt, (apiExtractGet url format request_id ydl tmpname fs).1 = .fileResp p n mt)
      ∨ (∃ s d, (apiExtractGet url format request_id ydl tmpname fs).1 = .jsonErr s d request_id))
    ∧ (∀ d, mainNormalizeAudioFormat format = Except.error (.httpExc 400 d) →
        (apiExtractGet url format request_id ydl tmpname fs).1 = .jsonErr 400 d request_id)
    ∧ (∀ fmt e, mainNormalizeAudioFormat format = Except.ok fmt →
        ydl.info = Except.error e →
        (apiExtractGet url format request_id ydl tmpname fs).1
          = .jsonErr 400 e.message request_id)
    ∧ (∀ fmt t fs₂ e, mainNormalizeAudioFormat format = Except.ok fmt →
        ydl.info = Except.ok t →
        (∀ o, ydl.download o (fs.mkdirp tmpname) = (fs₂, some e)) →
        (apiExtractGet url format request_id ydl tmpname fs).1
          = .jsonErr 400 e.message request_id)
    ∧ (∀ fmt t fs₂, mainNormalizeAudioFormat format = Except.ok fmt →
        ydl.info = Except.ok t →
        (∀ o, ydl.download o (fs.mkdirp tmpname) = (fs₂, none)) →
        fs₂.glob1 tmpname fmt = none →
        (apiExtractGet url format request_id ydl tmpname fs).1
          = .jsonErr 500 (pyUpper fmt ++
              " was not created. Is ffmpeg installed and available on PATH?") request_id)
    ∧ (∀ m, handleRouteException (.otherExc m) request_id
        = .jsonErr 500 "Internal server error" request_id) := by
  refine ⟨?_, ?_, ?_, ?_, ?_, fun m => rfl⟩
  · cases hN : mainNormalizeAudioFormat format with
    | error e =>
      cases e with
      | httpExc s d =>
        exact Or.inr ⟨s, d, by simp [apiExtractGet, handleRouteException, hN]⟩
      | otherExc m =>
        exact Or.inr ⟨500, "Internal server error",
          by simp [apiExtractGet, handleRouteException, hN]⟩
    | ok f =>
      rcases hE : extractAudioFileResponse ydl tmpname url f fs with ⟨r, fs'⟩
      cases r with
      | ok v =>
        rcases v with ⟨p, name, mt⟩
        exact Or.inl ⟨p, name, mt, by simp [apiExtractGet, hN, hE]⟩
      | error ex =>
        cases ex with
        | httpExc s d =>
          exact Or.inr ⟨s, d, by simp [apiExtractGet, handleRouteException, hN, hE]⟩
        | otherExc m =>
          exact Or.inr ⟨500, "Internal server error",
            by simp [apiExtractGet, handleRouteException, hN, hE]⟩
  · intro d hN
    simp [apiExtractGet, handleRouteException, hN]
  · intro fmt e hN hI
    simp [apiExtractGet, handleRouteException, extractAudioFileResponse, hN, hI]
  · intro fmt t fs₂ e hN hI hD
    simp [apiExtractGet, handleRouteException, extractAudioFileResponse, hN, hI, hD]
  · intro fmt t fs₂ hN hI hD hG
    simp [apiExtractGet, handleRouteException, extractAudioFileResponse, hN, hI, hD, hG]

/-- C4 witness: the amended classification instantiated at two concrete
runs — a no-output wav request is answered with status 500, and a request
whose download step raises is answered with status 400 carrying the
exception message. -/
theorem api_extract_error_contract_witness :
    (apiExtractGet "https://www.youtube.com/watch?v=x" (some "wav") "req-2" ydlNoOutput
        ["tmp", "yt-extract-a1b2"] fs0).1
      = .jsonErr 500 "WAV was not created. Is ffmpeg installed and available on PATH?" "req-2"
    ∧ (apiExtractGet "https://www.youtube.com/watch?v=x" (some "mp3") "req-3" ydlDownloadError
        ["tmp", "yt-extract-a1b2"] fs0).1
      = .jsonErr 400 "network failure" "req-3" :=
  ⟨(api_extract_error_contract "https://www.youtube.com/watch?v=x" (some "wav") "req-2"
      ydlNoOutput ["tmp", "yt-extract-a1b2"] fs0).2.2.2.2.1 "wav" (some "Test Video")
      (fs0.mkdirp ["tmp", "yt-extract-a1b2"]) rfl rfl (fun _ => rfl) rfl,
   (api_extract_error_contract "https://www.youtube.com/watch?v=x" (some "mp3") "req-3"
      ydlDownloadError ["tmp", "yt-extract-a1b2"] fs0).2.2.2.1 "mp3" (some "Test Video")
      (fs0.mkdirp ["tmp", "yt-extract-a1b2"]) (.other "network failure") rfl rfl (fun _ => rfl)⟩

/-- C7 counterexample: on the malformed URL `http://[::1?secret=x` the
parser raises `ValueError("Invalid IPv6 URL")`, so the `except` fallback
returns the URL unchanged — the non-`v` query parameter `secret=x` is
retained in what gets logged, refuting the claim for this URL string. -/
theorem redact_youtube_url_fallback_counterexample :
    redactYoutubeUrlForLogs "http://[::1?secret=x" = "http://[::1?secret=x"
    ∧ pyUrlparse "http://[::1?secret=x" = Except.error "Invalid IPv6 URL"
    ∧ strEndsWith (redactYoutubeUrlForLogs "http://[::1?secret=x") "secret=x" = true :=
  ⟨rfl, rfl, by decide⟩

/-- C7 (amended): for every URL string the stdlib parser accepts, the
redaction rebuilds the URL from only the scheme, host and path, an empty
params and fragment component, and a query that is either empty or
exactly `v=<value>` where `("v", value)` is a parameter of the input's
parsed query — every other query parameter and the fragment are removed;
for a URL string the parser rejects, the function returns the input
unchanged, unredacted. -/
theorem redact_youtube_url_amended :
    (∀ (url : String) (u : ParsedUrl), pyUrlparse url = Except.ok u →
      redactYoutubeUrlForLogs url = pyUrlunparse u.scheme u.netloc u.path "" "" ""
      ∨ ∃ v, ("v", v) ∈ parseQsl u.query
          ∧ redactYoutubeUrlForLogs url
            = pyUrlunparse u.scheme u.netloc u.path "" ("v=" ++ v) "")
    ∧ (∀ (url m : String), pyUrlparse url = Except.error m →
        redactYoutubeUrlForLogs url = url) := by
  constructor
  · intro url u h
    simp only [redactYoutubeUrlForLogs, h]
    rcases hF : (parseQsl u.query).filter (fun kv => kv.1 == "v") with _ | ⟨kv₀, rest⟩
    · left
      rw [hF]
    · right
      have hkv₀mem : kv₀ ∈ (parseQsl u.query).filter (fun kv => kv.1 == "v") := by
        rw [hF]; exact List.mem_cons_self _ _
      rcases List.mem_filter.mp hkv₀mem with ⟨hmem, hpred⟩
      have h1 : kv₀.1 = "v" := eq_of_beq hpred
      refine ⟨kv₀.2, ?_, by rw [hF]⟩
      have hpair : ("v", kv₀.2) = kv₀ := by rw [← h1]
      rw [hpair]
      exact hmem
  · intro url m h
    simp only [redactYoutubeUrlForLogs, h]

/-- C7 witness: a well-formed watch URL with extra `t` parameter and a
fragment is reduced to scheme, host, path and its `v` parameter, while a
URL the parser rejects comes back unchanged. -/
theorem redact_youtube_url_amended_witness :
    redactYoutubeUrlForLogs "https://www.youtube.com/watch?v=dQw4w9WgXcQ&t=42#frag"
      = "https://www.youtube.com/watch?v=dQw4w9WgXcQ"
    ∧ redactYoutubeUrlForLogs "http://[::1" = "http://[::1" :=
  ⟨rfl, redact_youtube_url_amended.2 "http://[::1" "Invalid IPv6 URL" rfl⟩
